import Mathlib

/-!
Verification of the bootstrap sequencer in
`packages/iris-files/src-tauri/src/lib.rs` (the `run` function).

The source is a Tauri application startup routine.  We give a shallow
embedding: every external collaborator (path resolver, filesystem,
window manager, the initializer of each plugin, the event loop) is an input
recorded in an `Env`, and `run` is a pure function from `Env` to an
observable event trace together with a final outcome (normal
termination or a process abort carrying the diagnostic message).
-/

namespace Bootstrap

/-- The sentinel launch flag checked by the source:
`args.contains(&"--minimized".to_string())`. -/
def sentinel : String := "--minimized"

/-- Observable events of the bootstrap sequence, in the order the source
emits them.  `pluginInit` records that the initializer of a plugin was invoked
(an attempt); `pluginRegistered` records that the registration succeeded.
`minimizeWindow` records the result the window manager returned for the
minimize request (the source discards it with `let _ = ...`). -/
inductive Event where
  | pluginInit (name : String)
  | pluginRegistered (name : String)
  | resolveDataDir
  | createDataDir
  | infoLog (msg : String)
  | checkMinimizedFlag
  | minimizeWindow (ok : Bool)
  | enterEventLoop
  deriving DecidableEq, Repr

abbrev Trace := List Event

/-- Final outcome of `run`: either normal return after the event loop, or
a process abort (Rust panic via `expect`) with a diagnostic message. -/
inductive Outcome where
  | normal
  | panic (msg : String)
  deriving DecidableEq, Repr

/-- Modelled from the spec: the filesystem collaborator behind
`std::fs::create_dir_all` (the call at line 22 of the source; the
function itself is the standard library, not in this repository).
`dirs` is the set of directories that exist, `creatable` says whether
the OS permits creating a directory at a path. -/
structure FS where
  dirs : List String
  creatable : String → Bool

/-- Modelled from the spec: `create_dir_all` is a no-op returning success
when the directory is already present, creates it when the OS permits,
and fails otherwise (e.g. permissions). -/
def createDirAll (fs : FS) (p : String) : Except String FS :=
  if fs.dirs.contains p then .ok fs
  else if fs.creatable p then .ok ⟨p :: fs.dirs, fs.creatable⟩
  else .error "permission denied"

/-- All external inputs the bootstrap consumes: the build target
(`isDesktop` models `cfg(any(target_os = "macos", windows, target_os =
"linux"))`), the launch arguments, the answer of the host path resolver
(`app_data_dir()`), the filesystem state, whether the `"main"` webview
window exists, the answer of the window manager to `minimize()`, the result
of each plugin initializer, and the result of the event loop. -/
structure Env where
  isDesktop : Bool
  args : List String
  appDataDir : Option String
  fs : FS
  windowExists : Bool
  minimizeOk : Bool
  osPluginResult : Except String Unit
  notifResult : Except String Unit
  openerResult : Except String Unit
  dialogResult : Except String Unit
  autostartResult : Except String Unit
  eventLoopResult : Except String Unit

/-- Flag detection, the embedding of
`args.contains(&"--minimized".to_string())`: exact string membership. -/
def detectMinimized (args : List String) : Bool :=
  args.contains sentinel

/-- The relaunch-argument list passed to the autostart plugin:
`Some(vec!["--minimized"])` in the source. -/
def autostartArgs : Option (List String) := some ["--minimized"]

/-- The launcher strategy passed to the autostart plugin:
`MacosLauncher::LaunchAgent` in the source. -/
def autostartLauncher : String := "LaunchAgent"

/-- The minimized-launch block of the source (lines 27-36): compiled only
on desktop targets; collects the args, tests the flag, and when the flag
is present and the main window exists, requests minimize (result
discarded) and logs the informational trace. -/
def minimizedStep (env : Env) : Trace :=
  if env.isDesktop then
    Event.checkMinimizedFlag ::
    (if detectMinimized env.args then
      (if env.windowExists then
        [Event.minimizeWindow env.minimizeOk,
         Event.infoLog "Started minimized (autostart)"]
      else [])
    else [])
  else []

/-- One `app.handle().plugin(...)` registration: the initializer is
invoked; on success the plugin is attached, on failure the error is
wrapped the way Tauri reports a plugin-initialization failure and
propagated by the `?` operator. -/
def pluginStep (name : String) (res : Except String Unit) :
    Trace × Except String Unit :=
  match res with
  | .ok _ => ([Event.pluginInit name, Event.pluginRegistered name], .ok ())
  | .error e =>
      ([Event.pluginInit name],
       .error ("failed to initialize plugin " ++ name ++ ": " ++ e))

/-- Errors escaping the setup closure: `expect` panics immediately inside
the closure (data-dir resolution and creation), while `?` returns the
error to the Tauri runtime, which surfaces it from `.run(...)`. -/
inductive SetupErr where
  | panicked (msg : String)
  | returned (msg : String)
  deriving DecidableEq, Repr

/-- The setup closure (lines 17-54 of the source): resolve the app data
directory (`expect` on failure), create it (`expect` on failure), log it,
run the desktop-only minimized-flag block, then register the
notification, opener and dialog plugins, and on desktop targets the
autostart plugin, each with `?` propagation. -/
def setup (env : Env) : Trace × Except SetupErr FS :=
  match env.appDataDir with
  | none => ([Event.resolveDataDir], .error (.panicked "failed to get app data dir"))
  | some dir =>
    match createDirAll env.fs dir with
    | .error _ =>
        ([Event.resolveDataDir, Event.createDataDir],
         .error (.panicked "failed to create data dir"))
    | .ok fs1 =>
      let t0 : Trace :=
        [Event.resolveDataDir, Event.createDataDir,
         Event.infoLog ("App data directory: " ++ dir)] ++ minimizedStep env
      let (tn, rn) := pluginStep "notifications" env.notifResult
      match rn with
      | .error e => (t0 ++ tn, .error (.returned e))
      | .ok _ =>
        let (tp, rp) := pluginStep "opener" env.openerResult
        match rp with
        | .error e => (t0 ++ tn ++ tp, .error (.returned e))
        | .ok _ =>
          let (td, rd) := pluginStep "dialog" env.dialogResult
          match rd with
          | .error e => (t0 ++ tn ++ tp ++ td, .error (.returned e))
          | .ok _ =>
            if env.isDesktop then
              let (ta, ra) := pluginStep "autostart" env.autostartResult
              match ra with
              | .error e => (t0 ++ tn ++ tp ++ td ++ ta, .error (.returned e))
              | .ok _ => (t0 ++ tn ++ tp ++ td ++ ta, .ok fs1)
            else
              (t0 ++ tn ++ tp ++ td, .ok fs1)

/-- The whole `run` function (minus logging initialization, which never
fails): the builder registers the OS-information plugin, then
`.run(generate_context!())` builds the app (failing if the initializer
of that plugin failed), executes the setup closure, and enters the event
loop; any error surfaced by `.run` hits
`.expect("error while running tauri application")`. -/
def run (env : Env) : Trace × Outcome :=
  let (tos, ros) := pluginStep "os" env.osPluginResult
  match ros with
  | .error e => (tos, .panic ("error while running tauri application: " ++ e))
  | .ok _ =>
    let (ts, rs) := setup env
    match rs with
    | .error (.panicked m) => (tos ++ ts, .panic m)
    | .error (.returned m) =>
        (tos ++ ts,
         .panic ("error while running tauri application: setup error: " ++ m))
    | .ok _ =>
      match env.eventLoopResult with
      | .ok _ => (tos ++ ts ++ [Event.enterEventLoop], .normal)
      | .error e =>
          (tos ++ ts ++ [Event.enterEventLoop],
           .panic ("error while running tauri application: " ++ e))

/-- The names of the plugins successfully registered along a trace, in
order. -/
def registeredPlugins (t : Trace) : List String :=
  t.filterMap fun e =>
    match e with
    | .pluginRegistered n => some n
    | _ => none

end Bootstrap

namespace Bootstrap

/-- Every event of the minimized-launch block is the flag check, the
minimize request, or the informational trace. -/
lemma mem_minimizedStep {env : Env} {e : Event} (h : e ∈ minimizedStep env) :
    e = .checkMinimizedFlag ∨ e = .minimizeWindow env.minimizeOk
    ∨ e = .infoLog "Started minimized (autostart)" := by
  unfold minimizedStep at h
  repeat' split at h
  all_goals simp_all

/-- The minimized-launch block invokes no plugin initializer. -/
lemma pluginInit_not_mem_minimizedStep (env : Env) (n : String) :
    Event.pluginInit n ∉ minimizedStep env := by
  intro h
  rcases mem_minimizedStep h with h | h | h <;> simp_all

/-- The minimized-launch block registers no plugin. -/
lemma registeredPlugins_minimizedStep (env : Env) :
    registeredPlugins (minimizedStep env) = [] := by
  unfold minimizedStep
  repeat' split
  all_goals simp [registeredPlugins]

/-- Successful registrations along a concatenation of traces. -/
lemma registeredPlugins_append (t1 t2 : Trace) :
    registeredPlugins (t1 ++ t2) = registeredPlugins t1 ++ registeredPlugins t2 := by
  simp [registeredPlugins]

/-- Successful registrations along a cons trace. -/
lemma registeredPlugins_cons (e : Event) (t : Trace) :
    registeredPlugins (e :: t) =
      (match e with | .pluginRegistered n => [n] | _ => []) ++ registeredPlugins t := by
  cases e <;> simp [registeredPlugins]

/-- Successful registrations along the empty trace. -/
lemma registeredPlugins_nil : registeredPlugins [] = [] := rfl

/-- A filesystem with no directories where every creation succeeds. -/
def fsOk : FS := ⟨[], fun _ => true⟩

/-- The filesystem `fsOk` after `"/data"` has been created. -/
def fsOk1 : FS := ⟨["/data"], fun _ => true⟩

/-- A filesystem with no directories where every creation fails. -/
def fsBad : FS := ⟨[], fun _ => false⟩

/-- A desktop environment where every external collaborator succeeds. -/
def envAllOk : Env :=
  ⟨true, ["--minimized"], some "/data", fsOk, true, true,
   .ok (), .ok (), .ok (), .ok (), .ok (), .ok ()⟩

/-- A desktop environment where all four setup plugin initializers fail. -/
def envAllFail : Env :=
  ⟨true, [], some "/data", fsOk, true, true,
   .ok (), .error "n!", .error "p!", .error "d!", .error "a!", .ok ()⟩

/-- A desktop environment where the app-data-dir path cannot be resolved. -/
def envResolveFail : Env :=
  ⟨true, [], none, fsOk, true, true,
   .ok (), .ok (), .ok (), .ok (), .ok (), .ok ()⟩

/-- A desktop environment where the OS-information plugin fails. -/
def envOsFail : Env :=
  ⟨true, [], some "/data", fsOk, true, true,
   .error "os!", .ok (), .ok (), .ok (), .ok (), .ok ()⟩

/-- A desktop environment where directory creation fails. -/
def envCreateFail : Env :=
  ⟨true, [], some "/data", fsBad, true, true,
   .ok (), .ok (), .ok (), .ok (), .ok (), .ok ()⟩

/-- A desktop environment where only the opener plugin fails. -/
def envOpenerFail : Env :=
  ⟨true, [], some "/data", fsOk, true, true,
   .ok (), .ok (), .error "p!", .ok (), .ok (), .ok ()⟩

/-- A desktop environment where only the dialog plugin fails. -/
def envDialogFail : Env :=
  ⟨true, [], some "/data", fsOk, true, true,
   .ok (), .ok (), .ok (), .error "d!", .ok (), .ok ()⟩

/-- A desktop environment where only the autostart plugin fails. -/
def envAutoFail : Env :=
  ⟨true, [], some "/data", fsOk, true, true,
   .ok (), .ok (), .ok (), .ok (), .error "a!", .ok ()⟩

/-- A desktop environment where only the event loop fails. -/
def envLoopFail : Env :=
  ⟨true, [], some "/data", fsOk, true, true,
   .ok (), .ok (), .ok (), .ok (), .ok (), .error "l!"⟩

/-- C1: the minimized-launch boolean is true iff the argument sequence
contains an element exactly equal to `"--minimized"`; elements that
merely contain the token as a substring or differ in case do not make it
true. -/
theorem detectMinimized_iff_mem (args : List String) :
    (detectMinimized args = true ↔ sentinel ∈ args)
    ∧ detectMinimized ["--MINIMIZED"] = false
    ∧ detectMinimized ["--Minimized"] = false
    ∧ detectMinimized ["x --minimized"] = false
    ∧ detectMinimized ["--minimized=1"] = false := by
  refine ⟨?_, by decide, by decide, by decide, by decide⟩
  simp [detectMinimized, sentinel]

/-- C2: if the registration of plugin N (notifications = 1, opener = 2,
dialog = 3, autostart = 4) fails, the initializers of plugins N+1
through 4 are never invoked and startup aborts. -/
theorem plugin_failure_short_circuits (env : Env) :
    (∀ e, env.notifResult = .error e →
      Event.pluginInit "opener" ∉ (run env).1
      ∧ Event.pluginInit "dialog" ∉ (run env).1
      ∧ Event.pluginInit "autostart" ∉ (run env).1
      ∧ ∃ m, (run env).2 = .panic m)
    ∧ (∀ e, env.openerResult = .error e →
      Event.pluginInit "dialog" ∉ (run env).1
      ∧ Event.pluginInit "autostart" ∉ (run env).1
      ∧ ∃ m, (run env).2 = .panic m)
    ∧ (∀ e, env.dialogResult = .error e →
      Event.pluginInit "autostart" ∉ (run env).1
      ∧ ∃ m, (run env).2 = .panic m)
    ∧ (∀ e, env.autostartResult = .error e → env.isDesktop = true →
      ∃ m, (run env).2 = .panic m) := by
  unfold run setup
  refine ⟨fun e h => ?_, fun e h => ?_, fun e h => ?_, fun e h hd => ?_⟩ <;>
  · cases hos : env.osPluginResult with
    | error eo => simp [pluginStep, hos]
    | ok u =>
      cases had : env.appDataDir with
      | none => simp [pluginStep, hos, had]
      | some d =>
        cases hcd : createDirAll env.fs d with
        | error ec => simp [pluginStep, hos, had, hcd]
        | ok fs1 =>
          cases hn : env.notifResult with
          | error en => simp [pluginStep, hos, had, hcd, hn, pluginInit_not_mem_minimizedStep]
          | ok _ =>
            cases hp : env.openerResult with
            | error ep =>
              simp_all [pluginStep, hos, had, hcd, hn, pluginInit_not_mem_minimizedStep]
            | ok _ =>
              cases hdg : env.dialogResult with
              | error ed =>
                simp_all [pluginStep, hos, had, hcd, hn, pluginInit_not_mem_minimizedStep]
              | ok _ =>
                simp_all [pluginStep, hos, had, hcd, hn, pluginInit_not_mem_minimizedStep]

/-- Witness for C2 at an environment where all four plugin initializers
fail. -/
theorem plugin_failure_short_circuits_witness :
    (Event.pluginInit "opener" ∉ (run envAllFail).1
     ∧ Event.pluginInit "dialog" ∉ (run envAllFail).1
     ∧ Event.pluginInit "autostart" ∉ (run envAllFail).1
     ∧ ∃ m, (run envAllFail).2 = .panic m)
    ∧ (Event.pluginInit "dialog" ∉ (run envAllFail).1
     ∧ Event.pluginInit "autostart" ∉ (run envAllFail).1
     ∧ ∃ m, (run envAllFail).2 = .panic m)
    ∧ (Event.pluginInit "autostart" ∉ (run envAllFail).1
     ∧ ∃ m, (run envAllFail).2 = .panic m)
    ∧ (∃ m, (run envAllFail).2 = .panic m) :=
  ⟨(plugin_failure_short_circuits envAllFail).1 "n!" rfl,
   (plugin_failure_short_circuits envAllFail).2.1 "p!" rfl,
   (plugin_failure_short_circuits envAllFail).2.2.1 "d!" rfl,
   (plugin_failure_short_circuits envAllFail).2.2.2 "a!" rfl rfl⟩

/-- C3: on a successful desktop startup the setup sequencer registers
exactly four capability plugins, in the fixed order notifications,
opener, dialog, autostart, and the autostart relaunch-argument
list is exactly the minimized sentinel token. -/
theorem successful_desktop_registers_four_plugins (env : Env) (d : String) (fs1 : FS)
    (hd : env.isDesktop = true) (had : env.appDataDir = some d)
    (hcd : createDirAll env.fs d = .ok fs1) (hn : env.notifResult = .ok ())
    (hp : env.openerResult = .ok ()) (hdg : env.dialogResult = .ok ())
    (ha : env.autostartResult = .ok ()) :
    registeredPlugins (setup env).1 = ["notifications", "opener", "dialog", "autostart"]
    ∧ autostartArgs = some [sentinel] := by
  constructor
  · unfold setup
    simp [had, hcd, hn, hp, hdg, ha, hd, pluginStep, registeredPlugins_append,
          registeredPlugins_cons, registeredPlugins_minimizedStep, registeredPlugins_nil]
  · rfl

/-- Witness for C3 at the all-success desktop environment. -/
theorem successful_desktop_registers_four_plugins_witness :
    registeredPlugins (setup envAllOk).1 = ["notifications", "opener", "dialog", "autostart"]
    ∧ autostartArgs = some [sentinel] :=
  successful_desktop_registers_four_plugins envAllOk "/data" fsOk1
    rfl rfl rfl rfl rfl rfl rfl

/-- C4: if the data-directory path cannot be resolved or the directory
cannot be created, startup aborts with a diagnostic and no later step
(directory log, minimized-flag handling, any setup plugin registration,
event loop) executes. -/
theorem data_dir_failure_aborts_before_later_steps (env : Env)
    (h : env.appDataDir = none
        ∨ ∃ d e, env.appDataDir = some d ∧ createDirAll env.fs d = .error e) :
    (∃ m, (run env).2 = .panic m)
    ∧ (∀ s, Event.infoLog s ∉ (run env).1)
    ∧ Event.checkMinimizedFlag ∉ (run env).1
    ∧ (∀ b, Event.minimizeWindow b ∉ (run env).1)
    ∧ Event.pluginInit "notifications" ∉ (run env).1
    ∧ Event.pluginInit "opener" ∉ (run env).1
    ∧ Event.pluginInit "dialog" ∉ (run env).1
    ∧ Event.pluginInit "autostart" ∉ (run env).1
    ∧ Event.enterEventLoop ∉ (run env).1 := by
  unfold run setup
  cases hos : env.osPluginResult with
  | error eo => simp [pluginStep, hos]
  | ok u =>
    rcases h with h | ⟨d, e, had, hcd⟩
    · simp [pluginStep, hos, h]
    · simp [pluginStep, hos, had, hcd]

/-- Witness for C4 at an environment whose path resolution fails. -/
theorem data_dir_failure_aborts_before_later_steps_witness :
    (∃ m, (run envResolveFail).2 = .panic m)
    ∧ Event.infoLog "App data directory" ∉ (run envResolveFail).1
    ∧ Event.checkMinimizedFlag ∉ (run envResolveFail).1
    ∧ Event.minimizeWindow true ∉ (run envResolveFail).1
    ∧ Event.pluginInit "notifications" ∉ (run envResolveFail).1
    ∧ Event.pluginInit "opener" ∉ (run envResolveFail).1
    ∧ Event.pluginInit "dialog" ∉ (run envResolveFail).1
    ∧ Event.pluginInit "autostart" ∉ (run envResolveFail).1
    ∧ Event.enterEventLoop ∉ (run envResolveFail).1 :=
  ⟨(data_dir_failure_aborts_before_later_steps envResolveFail (Or.inl rfl)).1,
   (data_dir_failure_aborts_before_later_steps envResolveFail (Or.inl rfl)).2.1
     "App data directory",
   (data_dir_failure_aborts_before_later_steps envResolveFail (Or.inl rfl)).2.2.1,
   (data_dir_failure_aborts_before_later_steps envResolveFail (Or.inl rfl)).2.2.2.1 true,
   (data_dir_failure_aborts_before_later_steps envResolveFail (Or.inl rfl)).2.2.2.2.1,
   (data_dir_failure_aborts_before_later_steps envResolveFail (Or.inl rfl)).2.2.2.2.2.1,
   (data_dir_failure_aborts_before_later_steps envResolveFail (Or.inl rfl)).2.2.2.2.2.2.1,
   (data_dir_failure_aborts_before_later_steps envResolveFail (Or.inl rfl)).2.2.2.2.2.2.2.1,
   (data_dir_failure_aborts_before_later_steps envResolveFail (Or.inl rfl)).2.2.2.2.2.2.2.2⟩

/-- C5: every fatal setup failure aborts immediately — the trace ends at
the attempt of the failing step, with each step attempted at most once and no
fallback — and the diagnostic message names the failing step. -/
theorem fatal_failures_abort_immediately (env : Env) :
    (∀ e, env.osPluginResult = .error e →
      (run env).2 = .panic ("error while running tauri application: " ++ ("failed to initialize plugin os: " ++ e))
      ∧ (run env).1 = [Event.pluginInit "os"])
    ∧ (env.osPluginResult = .ok () → env.appDataDir = none →
      (run env).2 = .panic "failed to get app data dir"
      ∧ (run env).1 = [Event.pluginInit "os", Event.pluginRegistered "os",
          Event.resolveDataDir])
    ∧ (∀ d e, env.osPluginResult = .ok () → env.appDataDir = some d →
      createDirAll env.fs d = .error e →
      (run env).2 = .panic "failed to create data dir"
      ∧ (run env).1 = [Event.pluginInit "os", Event.pluginRegistered "os",
          Event.resolveDataDir, Event.createDataDir])
    ∧ (∀ d fs1 e, env.osPluginResult = .ok () → env.appDataDir = some d →
      createDirAll env.fs d = .ok fs1 → env.notifResult = .error e →
      (run env).2 = .panic ("error while running tauri application: setup error: " ++ ("failed to initialize plugin notifications: " ++ e))
      ∧ (run env).1 = [Event.pluginInit "os", Event.pluginRegistered "os",
          Event.resolveDataDir, Event.createDataDir,
          Event.infoLog ("App data directory: " ++ d)]
          ++ minimizedStep env ++ [Event.pluginInit "notifications"])
    ∧ (∀ d fs1 e, env.osPluginResult = .ok () → env.appDataDir = some d →
      createDirAll env.fs d = .ok fs1 → env.notifResult = .ok () →
      env.openerResult = .error e →
      (run env).2 = .panic ("error while running tauri application: setup error: " ++ ("failed to initialize plugin opener: " ++ e))
      ∧ (run env).1 = [Event.pluginInit "os", Event.pluginRegistered "os",
          Event.resolveDataDir, Event.createDataDir,
          Event.infoLog ("App data directory: " ++ d)]
          ++ minimizedStep env
          ++ [Event.pluginInit "notifications", Event.pluginRegistered "notifications",
              Event.pluginInit "opener"])
    ∧ (∀ d fs1 e, env.osPluginResult = .ok () → env.appDataDir = some d →
      createDirAll env.fs d = .ok fs1 → env.notifResult = .ok () →
      env.openerResult = .ok () → env.dialogResult = .error e →
      (run env).2 = .panic ("error while running tauri application: setup error: " ++ ("failed to initialize plugin dialog: " ++ e))
      ∧ (run env).1 = [Event.pluginInit "os", Event.pluginRegistered "os",
          Event.resolveDataDir, Event.createDataDir,
          Event.infoLog ("App data directory: " ++ d)]
          ++ minimizedStep env
          ++ [Event.pluginInit "notifications", Event.pluginRegistered "notifications",
              Event.pluginInit "opener", Event.pluginRegistered "opener",
              Event.pluginInit "dialog"])
    ∧ (∀ d fs1 e, env.osPluginResult = .ok () → env.appDataDir = some d →
      createDirAll env.fs d = .ok fs1 → env.notifResult = .ok () →
      env.openerResult = .ok () → env.dialogResult = .ok () →
      env.isDesktop = true → env.autostartResult = .error e →
      (run env).2 = .panic ("error while running tauri application: setup error: " ++ ("failed to initialize plugin autostart: " ++ e))
      ∧ (run env).1 = [Event.pluginInit "os", Event.pluginRegistered "os",
          Event.resolveDataDir, Event.createDataDir,
          Event.infoLog ("App data directory: " ++ d)]
          ++ minimizedStep env
          ++ [Event.pluginInit "notifications", Event.pluginRegistered "notifications",
              Event.pluginInit "opener", Event.pluginRegistered "opener",
              Event.pluginInit "dialog", Event.pluginRegistered "dialog",
              Event.pluginInit "autostart"])
    ∧ (∀ d fs1 e, env.osPluginResult = .ok () → env.appDataDir = some d →
      createDirAll env.fs d = .ok fs1 → env.notifResult = .ok () →
      env.openerResult = .ok () → env.dialogResult = .ok () →
      (env.isDesktop = true → env.autostartResult = .ok ()) →
      env.eventLoopResult = .error e →
      (run env).2 = .panic ("error while running tauri application: " ++ e)) := by
  unfold run setup
  refine ⟨fun e h => ?_,
          fun h1 h2 => ?_,
          fun d e h1 h2 h3 => ?_,
          fun d fs1 e h1 h2 h3 h4 => ?_,
          fun d fs1 e h1 h2 h3 h4 h5 => ?_,
          fun d fs1 e h1 h2 h3 h4 h5 h6 => ?_,
          fun d fs1 e h1 h2 h3 h4 h5 h6 h7 h8 => ?_,
          fun d fs1 e h1 h2 h3 h4 h5 h6 h7 h8 => ?_⟩
  · simp [pluginStep, h]
  · simp [pluginStep, h1, h2]
  · simp [pluginStep, h1, h2, h3]
  · simp [pluginStep, h1, h2, h3, h4]
  · simp [pluginStep, h1, h2, h3, h4, h5]
  · simp [pluginStep, h1, h2, h3, h4, h5, h6]
  · simp [pluginStep, h1, h2, h3, h4, h5, h6, h7, h8]
  · cases hd : env.isDesktop with
    | true => simp [pluginStep, h1, h2, h3, h4, h5, h6, h7 hd, h8, hd]
    | false => simp [pluginStep, h1, h2, h3, h4, h5, h6, h8, hd]

/-- Witness for C5: every failure case exercised at a concrete
environment. -/
theorem fatal_failures_abort_immediately_witness :
    ((run envOsFail).2 = .panic ("error while running tauri application: " ++ ("failed to initialize plugin os: " ++ "os!"))
      ∧ (run envOsFail).1 = [Event.pluginInit "os"])
    ∧ ((run envResolveFail).2 = .panic "failed to get app data dir"
      ∧ (run envResolveFail).1 = [Event.pluginInit "os", Event.pluginRegistered "os",
          Event.resolveDataDir])
    ∧ ((run envCreateFail).2 = .panic "failed to create data dir"
      ∧ (run envCreateFail).1 = [Event.pluginInit "os", Event.pluginRegistered "os",
          Event.resolveDataDir, Event.createDataDir])
    ∧ ((run envAllFail).2 = .panic ("error while running tauri application: setup error: " ++ ("failed to initialize plugin notifications: " ++ "n!"))
      ∧ (run envAllFail).1 = [Event.pluginInit "os", Event.pluginRegistered "os",
          Event.resolveDataDir, Event.createDataDir,
          Event.infoLog ("App data directory: " ++ "/data")]
          ++ minimizedStep envAllFail ++ [Event.pluginInit "notifications"])
    ∧ ((run envOpenerFail).2 = .panic ("error while running tauri application: setup error: " ++ ("failed to initialize plugin opener: " ++ "p!"))
      ∧ (run envOpenerFail).1 = [Event.pluginInit "os", Event.pluginRegistered "os",
          Event.resolveDataDir, Event.createDataDir,
          Event.infoLog ("App data directory: " ++ "/data")]
          ++ minimizedStep envOpenerFail
          ++ [Event.pluginInit "notifications", Event.pluginRegistered "notifications",
              Event.pluginInit "opener"])
    ∧ ((run envDialogFail).2 = .panic ("error while running tauri application: setup error: " ++ ("failed to initialize plugin dialog: " ++ "d!"))
      ∧ (run envDialogFail).1 = [Event.pluginInit "os", Event.pluginRegistered "os",
          Event.resolveDataDir, Event.createDataDir,
          Event.infoLog ("App data directory: " ++ "/data")]
          ++ minimizedStep envDialogFail
          ++ [Event.pluginInit "notifications", Event.pluginRegistered "notifications",
              Event.pluginInit "opener", Event.pluginRegistered "opener",
              Event.pluginInit "dialog"])
    ∧ ((run envAutoFail).2 = .panic ("error while running tauri application: setup error: " ++ ("failed to initialize plugin autostart: " ++ "a!"))
      ∧ (run envAutoFail).1 = [Event.pluginInit "os", Event.pluginRegistered "os",
          Event.resolveDataDir, Event.createDataDir,
          Event.infoLog ("App data directory: " ++ "/data")]
          ++ minimizedStep envAutoFail
          ++ [Event.pluginInit "notifications", Event.pluginRegistered "notifications",
              Event.pluginInit "opener", Event.pluginRegistered "opener",
              Event.pluginInit "dialog", Event.pluginRegistered "dialog",
              Event.pluginInit "autostart"])
    ∧ (run envLoopFail).2 = .panic ("error while running tauri application: " ++ "l!") :=
  ⟨(fatal_failures_abort_immediately envOsFail).1 "os!" rfl,
   (fatal_failures_abort_immediately envResolveFail).2.1 rfl rfl,
   (fatal_failures_abort_immediately envCreateFail).2.2.1 "/data" "permission denied" rfl rfl rfl,
   (fatal_failures_abort_immediately envAllFail).2.2.2.1 "/data" fsOk1 "n!" rfl rfl rfl rfl,
   (fatal_failures_abort_immediately envOpenerFail).2.2.2.2.1 "/data" fsOk1 "p!" rfl rfl rfl rfl rfl,
   (fatal_failures_abort_immediately envDialogFail).2.2.2.2.2.1 "/data" fsOk1 "d!" rfl rfl rfl rfl rfl rfl,
   (fatal_failures_abort_immediately envAutoFail).2.2.2.2.2.2.1 "/data" fsOk1 "a!" rfl rfl rfl rfl rfl rfl rfl rfl,
   (fatal_failures_abort_immediately envLoopFail).2.2.2.2.2.2.2 "/data" fsOk1 "l!" rfl rfl rfl rfl rfl rfl (fun _ => rfl) rfl⟩

/-- C6: on a non-desktop build the minimized-flag check never runs, the
minimize request is never issued, and the autostart plugin is never
initialized or registered, for every launch-argument sequence. -/
theorem non_desktop_gating (env : Env) (hd : env.isDesktop = false) :
    Event.checkMinimizedFlag ∉ (run env).1
    ∧ (∀ b, Event.minimizeWindow b ∉ (run env).1)
    ∧ Event.pluginInit "autostart" ∉ (run env).1
    ∧ Event.pluginRegistered "autostart" ∉ (run env).1 := by
  unfold run setup
  cases hos : env.osPluginResult with
  | error eo => simp [pluginStep, hos]
  | ok u =>
    cases had : env.appDataDir with
    | none => simp [pluginStep, hos, had]
    | some d =>
      cases hcd : createDirAll env.fs d with
      | error ec => simp [pluginStep, hos, had, hcd]
      | ok fs1 =>
        cases hn : env.notifResult <;>
        cases hp : env.openerResult <;>
        cases hdg : env.dialogResult <;>
        cases hel : env.eventLoopResult <;>
        simp [pluginStep, hos, had, hcd, hn, hp, hdg, hel, minimizedStep, hd]

/-- A non-desktop environment launched with the sentinel flag present. -/
def envNonDesktop : Env :=
  ⟨false, ["--minimized"], some "/data", fsOk, true, true,
   .ok (), .ok (), .ok (), .ok (), .ok (), .ok ()⟩

/-- Witness for C6 at a non-desktop environment whose argument list
contains the sentinel. -/
theorem non_desktop_gating_witness :
    Event.checkMinimizedFlag ∉ (run envNonDesktop).1
    ∧ Event.minimizeWindow true ∉ (run envNonDesktop).1
    ∧ Event.minimizeWindow false ∉ (run envNonDesktop).1
    ∧ Event.pluginInit "autostart" ∉ (run envNonDesktop).1
    ∧ Event.pluginRegistered "autostart" ∉ (run envNonDesktop).1 :=
  ⟨(non_desktop_gating envNonDesktop rfl).1,
   (non_desktop_gating envNonDesktop rfl).2.1 true,
   (non_desktop_gating envNonDesktop rfl).2.1 false,
   (non_desktop_gating envNonDesktop rfl).2.2.1,
   (non_desktop_gating envNonDesktop rfl).2.2.2⟩

/-- The directory log line never coincides with the minimized-launch log
line, whatever the directory path. -/
lemma appDataLog_ne (d : String) :
    "App data directory: " ++ d ≠ "Started minimized (autostart)" := by
  intro h
  have h2 := congrArg String.data h
  rw [String.data_append] at h2
  have h3 := congrArg List.head? h2
  rw [List.head?_append] at h3
  simp at h3

/-- C7: when the flag is set but no main window exists, the minimize
request is never issued, the minimized-launch log line is not emitted,
the flag check itself did run, and the bootstrap continues to plugin
registration. -/
theorem missing_window_tolerated (env : Env) (d : String) (fs1 : FS)
    (hd : env.isDesktop = true) (hflag : detectMinimized env.args = true)
    (hw : env.windowExists = false) (hos : env.osPluginResult = .ok ())
    (had : env.appDataDir = some d) (hcd : createDirAll env.fs d = .ok fs1) :
    (∀ b, Event.minimizeWindow b ∉ (run env).1)
    ∧ Event.infoLog "Started minimized (autostart)" ∉ (run env).1
    ∧ Event.checkMinimizedFlag ∈ (run env).1
    ∧ Event.pluginInit "notifications" ∈ (run env).1 := by
  have hms : minimizedStep env = [Event.checkMinimizedFlag] := by
    simp [minimizedStep, hd, hflag, hw]
  have hne := appDataLog_ne d
  have hne2 := Ne.symm hne
  unfold run setup
  cases hn : env.notifResult <;>
  cases hp : env.openerResult <;>
  cases hdg : env.dialogResult <;>
  cases ha : env.autostartResult <;>
  cases hel : env.eventLoopResult <;>
  simp [pluginStep, hos, had, hcd, hn, hp, hdg, ha, hel, hms, hd, hne, hne2]

/-- A desktop environment launched with the flag but with no main
window. -/
def envNoWindow : Env :=
  ⟨true, ["--minimized"], some "/data", fsOk, false, true,
   .ok (), .ok (), .ok (), .ok (), .ok (), .ok ()⟩

/-- Witness for C7 at a flagged desktop environment with no main
window. -/
theorem missing_window_tolerated_witness :
    Event.minimizeWindow true ∉ (run envNoWindow).1
    ∧ Event.minimizeWindow false ∉ (run envNoWindow).1
    ∧ Event.infoLog "Started minimized (autostart)" ∉ (run envNoWindow).1
    ∧ Event.checkMinimizedFlag ∈ (run envNoWindow).1
    ∧ Event.pluginInit "notifications" ∈ (run envNoWindow).1 :=
  ⟨(missing_window_tolerated envNoWindow "/data" fsOk1 rfl rfl rfl rfl rfl rfl).1 true,
   (missing_window_tolerated envNoWindow "/data" fsOk1 rfl rfl rfl rfl rfl rfl).1 false,
   (missing_window_tolerated envNoWindow "/data" fsOk1 rfl rfl rfl rfl rfl rfl).2.1,
   (missing_window_tolerated envNoWindow "/data" fsOk1 rfl rfl rfl rfl rfl rfl).2.2.1,
   (missing_window_tolerated envNoWindow "/data" fsOk1 rfl rfl rfl rfl rfl rfl).2.2.2⟩

/-- C8: directory creation is idempotent — after a successful creation,
running the creation step again on the same path succeeds with the
filesystem unchanged and the directory present. -/
theorem createDirAll_idempotent (fs : FS) (p : String) (fs1 : FS)
    (h : createDirAll fs p = .ok fs1) :
    createDirAll fs1 p = .ok fs1 ∧ fs1.dirs.contains p = true := by
  unfold createDirAll at h ⊢
  split at h
  · next hc =>
      cases h
      simp_all
  · split at h
    · next hcr =>
        cases h
        simp
    · cases h

/-- Witness for C8: creating `"/data"` on an empty permissive filesystem
then re-running the creation step. -/
theorem createDirAll_idempotent_witness :
    createDirAll fsOk1 "/data" = .ok fsOk1 ∧ fsOk1.dirs.contains "/data" = true :=
  createDirAll_idempotent fsOk "/data" fsOk1 rfl

/-- C9: the OS-information plugin is a fifth registration, placed on the
builder before the setup sequence, so its two events open the trace, and
a fully successful desktop startup registers five plugins with the OS
plugin first. -/
theorem os_plugin_registered_first (env : Env) :
    (env.osPluginResult = .ok () →
      (run env).1.take 2 = [Event.pluginInit "os", Event.pluginRegistered "os"])
    ∧ (∀ d fs1, env.osPluginResult = .ok () → env.appDataDir = some d →
      createDirAll env.fs d = .ok fs1 → env.notifResult = .ok () →
      env.openerResult = .ok () → env.dialogResult = .ok () →
      env.isDesktop = true → env.autostartResult = .ok () →
      registeredPlugins (run env).1 =
        ["os", "notifications", "opener", "dialog", "autostart"]) := by
  constructor
  · intro h
    unfold run setup
    cases had : env.appDataDir with
    | none => simp [pluginStep, h, had]
    | some d =>
      cases hcd : createDirAll env.fs d with
      | error e => simp [pluginStep, h, had, hcd]
      | ok fs1 =>
        cases hn : env.notifResult <;>
        cases hp : env.openerResult <;>
        cases hdg : env.dialogResult <;>
        cases hel : env.eventLoopResult <;>
        cases hds : env.isDesktop <;>
        cases ha : env.autostartResult <;>
        simp [pluginStep, h, had, hcd, hn, hp, hdg, hel, hds, ha]
  · intro d fs1 h had hcd hn hp hdg hds ha
    unfold run setup
    cases hel : env.eventLoopResult <;>
    simp [pluginStep, h, had, hcd, hn, hp, hdg, hds, ha, hel,
          registeredPlugins_append, registeredPlugins_cons,
          registeredPlugins_minimizedStep, registeredPlugins_nil]

/-- Witness for C9 at the all-success desktop environment. -/
theorem os_plugin_registered_first_witness :
    (run envAllOk).1.take 2 = [Event.pluginInit "os", Event.pluginRegistered "os"]
    ∧ registeredPlugins (run envAllOk).1 =
        ["os", "notifications", "opener", "dialog", "autostart"] :=
  ⟨(os_plugin_registered_first envAllOk).1 rfl,
   (os_plugin_registered_first envAllOk).2 "/data" fsOk1
     rfl rfl rfl rfl rfl rfl rfl rfl⟩

/-- The environment with its window-manager minimize answer replaced. -/
def setMinimizeOk (env : Env) (b : Bool) : Env :=
  ⟨env.isDesktop, env.args, env.appDataDir, env.fs, env.windowExists, b,
   env.osPluginResult, env.notifResult, env.openerResult, env.dialogResult,
   env.autostartResult, env.eventLoopResult⟩

/-- C10: when the flag is set and the main window exists, the minimize
request result is recorded and then discarded — the informational log
line is emitted whatever the window manager answered, the bootstrap
continues to plugin registration, and the final outcome is identical for
every possible minimize answer. -/
theorem minimize_error_discarded (env : Env) (d : String) (fs1 : FS)
    (hd : env.isDesktop = true) (hflag : detectMinimized env.args = true)
    (hw : env.windowExists = true) (hos : env.osPluginResult = .ok ())
    (had : env.appDataDir = some d) (hcd : createDirAll env.fs d = .ok fs1) :
    Event.minimizeWindow env.minimizeOk ∈ (run env).1
    ∧ Event.infoLog "Started minimized (autostart)" ∈ (run env).1
    ∧ Event.pluginInit "notifications" ∈ (run env).1
    ∧ ∀ b, (run (setMinimizeOk env b)).2 = (run env).2 := by
  have hms : minimizedStep env =
      [Event.checkMinimizedFlag, Event.minimizeWindow env.minimizeOk,
       Event.infoLog "Started minimized (autostart)"] := by
    simp [minimizedStep, hd, hflag, hw]
  refine ⟨?_, ?_, ?_, ?_⟩
  · unfold run setup
    cases hn : env.notifResult <;>
    cases hp : env.openerResult <;>
    cases hdg : env.dialogResult <;>
    cases ha : env.autostartResult <;>
    cases hel : env.eventLoopResult <;>
    simp [pluginStep, hos, had, hcd, hn, hp, hdg, ha, hel, hms, hd]
  · unfold run setup
    cases hn : env.notifResult <;>
    cases hp : env.openerResult <;>
    cases hdg : env.dialogResult <;>
    cases ha : env.autostartResult <;>
    cases hel : env.eventLoopResult <;>
    simp [pluginStep, hos, had, hcd, hn, hp, hdg, ha, hel, hms, hd]
  · unfold run setup
    cases hn : env.notifResult <;>
    cases hp : env.openerResult <;>
    cases hdg : env.dialogResult <;>
    cases ha : env.autostartResult <;>
    cases hel : env.eventLoopResult <;>
    simp [pluginStep, hos, had, hcd, hn, hp, hdg, ha, hel, hms, hd]
  · intro b
    unfold run setup setMinimizeOk
    cases hn : env.notifResult <;>
    cases hp : env.openerResult <;>
    cases hdg : env.dialogResult <;>
    cases ha : env.autostartResult <;>
    cases hel : env.eventLoopResult <;>
    simp [pluginStep, hos, had, hcd, hn, hp, hdg, ha, hel, hd]

/-- Witness for C10 at the all-success desktop environment, whose window
exists and whose argument list carries the flag. -/
theorem minimize_error_discarded_witness :
    Event.minimizeWindow envAllOk.minimizeOk ∈ (run envAllOk).1
    ∧ Event.infoLog "Started minimized (autostart)" ∈ (run envAllOk).1
    ∧ Event.pluginInit "notifications" ∈ (run envAllOk).1
    ∧ (run (setMinimizeOk envAllOk false)).2 = (run envAllOk).2 :=
  ⟨(minimize_error_discarded envAllOk "/data" fsOk1 rfl rfl rfl rfl rfl rfl).1,
   (minimize_error_discarded envAllOk "/data" fsOk1 rfl rfl rfl rfl rfl rfl).2.1,
   (minimize_error_discarded envAllOk "/data" fsOk1 rfl rfl rfl rfl rfl rfl).2.2.1,
   (minimize_error_discarded envAllOk "/data" fsOk1 rfl rfl rfl rfl rfl rfl).2.2.2 false⟩

end Bootstrap
